import Mathlib

/-!
A formal model of the deployment-orchestration core of the `garcon`
repository, together with theorems checking the behavioural claims made
about it.

The model is a shallow embedding of the Python sources:

* `app/utils.py`     — webhook signature verification (`verify_github_webhook`);
* `app/models.py`    — the SQLite-backed registry (`DatabaseManager`),
  modelled as pure state-passing functions over an explicit `DB` value,
  with a `fault : Bool` parameter standing for an `sqlite3.Error` raised
  by the storage layer inside the operation's `try` block;
* `app/services.py`  — the service layer (`Services`);
* `app/traefik_utils.py` — the docker-compose transformer
  (`DockerComposeModifier`);
* `app/routes.py`    — the `/webhook` endpoint, up to its first state
  mutation.

Machine-level primitives that live outside the repository (Python's
`hmac`/`hashlib`) are taken as parameters of the embedding.
-/

namespace Garcon

/-- Python `s.startswith(pre)`, modelled on the underlying character list. -/
def pyStartswith (s pre : String) : Bool := pre.data.isPrefixOf s.data

/-- Python slicing `s[n:]`, modelled on the underlying character list. -/
def pyDrop (s : String) (n : Nat) : String := String.mk (s.data.drop n)

/-- Python truthiness of an optional string: `None` and `""` are falsy,
every other string is truthy. -/
def optStrTruthy : Option String → Bool
  | none => false
  | some s => !(s == "")

/-- `verify_github_webhook(payload_body, signature_header, secret)` from
`app/utils.py`.  The HMAC-SHA256 hex digest primitive `hmacHex`
(Python's `hmac.new(secret, body, sha256).hexdigest()`, external to the
repository) is a parameter of the embedding; the payload body is a list
of bytes.  `signature_header` and `secret` are optional because the
caller obtains them from `headers.get` / `config.get`, which yield
`None` when absent. -/
def verify_github_webhook (hmacHex : String → List Nat → String)
    (payload_body : List Nat) (signature_header secret : Option String) :
    Bool :=
  match signature_header with
  | none => false
  | some h =>
    if h == "" then false
    else
      match secret with
      | none => false
      | some s =>
        if s == "" then false
        else if !(pyStartswith h "sha256=") then false
        else
          let github_signature := pyDrop h 7
          let expected_signature := hmacHex s payload_body
          github_signature == expected_signature

/-! ## Registry (`app/models.py`, `DatabaseManager`)

The two SQLite tables are modelled as lists of rows inside an explicit
`DB` state; `AUTOINCREMENT` ids are the `next…Id` counters and SQL's
`CURRENT_TIMESTAMP` is a `now : Nat` argument of each mutating
operation.  Every operation takes a `fault : Bool` flag standing for an
`sqlite3.Error` raised by the storage layer during the operation: the
`fault = true` branch is the operation's `except sqlite3.Error` handler,
which logs and returns the documented failure indicator. -/

/-- A row of the `projects` table. -/
structure ProjectRow where
  id : Nat
  repo_name : String
  repo_url : String
  local_path : Option String
  container_id : Option String
  deployment_uuid : Option String
  created_at : Nat
  updated_at : Nat
deriving Repr, DecidableEq

/-- A row of the `deployments` table. -/
structure DeploymentRow where
  id : Nat
  project_id : Nat
  status : String
  deploy_time : Nat
  commit_hash : Option String
  error_message : Option String
  container_id : Option String
  deployment_uuid : Option String
  deployment_type : String
deriving Repr, DecidableEq

/-- The persistent state behind `DatabaseManager`. -/
structure DB where
  projects : List ProjectRow
  deployments : List DeploymentRow
  nextProjectId : Nat
  nextDeploymentId : Nat
deriving Repr, DecidableEq

/-- `DatabaseManager.get_project_by_repo_name`: `SELECT * FROM projects
WHERE repo_name = ?` with `fetchone`, returning `None` on a storage
fault. -/
def get_project_by_repo_name (fault : Bool) (db : DB) (repo_name : String) :
    Option ProjectRow :=
  if fault then none
  else db.projects.find? (fun p => p.repo_name == repo_name)

/-- `DatabaseManager.get_project_by_id`. -/
def get_project_by_id (fault : Bool) (db : DB) (project_id : Nat) :
    Option ProjectRow :=
  if fault then none
  else db.projects.find? (fun p => p.id == project_id)

/-- The row update performed by `add_or_update_project`'s `UPDATE`
statement on a row matching the `WHERE repo_name = ?` clause. -/
def applyProjectUpdate (repo_url : String)
    (local_path container_id deployment_uuid : Option String) (now : Nat)
    (p : ProjectRow) : ProjectRow :=
  { p with repo_url := repo_url, local_path := local_path,
           container_id := container_id, deployment_uuid := deployment_uuid,
           updated_at := now }

/-- `DatabaseManager.add_or_update_project(repo_name, repo_url,
local_path=None, container_id=None, deployment_uuid=None)`: looks the
project up by `repo_name`; if found, runs `UPDATE … WHERE repo_name = ?`
(every column of the row except `id`, `repo_name` and `created_at` is
overwritten) and returns the existing id; otherwise runs `INSERT` and
returns `lastrowid`.  On a storage fault it returns `None` with the
state unchanged. -/
def add_or_update_project (fault : Bool) (db : DB) (now : Nat)
    (repo_name repo_url : String)
    (local_path container_id deployment_uuid : Option String) :
    Option Nat × DB :=
  if fault then (none, db)
  else
    match db.projects.find? (fun p => p.repo_name == repo_name) with
    | some existing =>
      (some existing.id,
       { db with projects := db.projects.map (fun p =>
           if p.repo_name == repo_name then
             applyProjectUpdate repo_url local_path container_id
               deployment_uuid now p
           else p) })
    | none =>
      let row : ProjectRow :=
        { id := db.nextProjectId, repo_name := repo_name,
          repo_url := repo_url, local_path := local_path,
          container_id := container_id, deployment_uuid := deployment_uuid,
          created_at := now, updated_at := now }
      (some db.nextProjectId,
       { db with projects := db.projects ++ [row],
                 nextProjectId := db.nextProjectId + 1 })

/-- `DatabaseManager.log_deployment`: one `INSERT` into `deployments`;
on a storage fault the handler only logs, so the state is unchanged and
nothing is raised. -/
def log_deployment (fault : Bool) (db : DB) (now : Nat) (project_id : Nat)
    (status : String) (commit_hash error_message container_id
    deployment_uuid : Option String) (deployment_type : String) : DB :=
  if fault then db
  else
    let row : DeploymentRow :=
      { id := db.nextDeploymentId, project_id := project_id,
        status := status, deploy_time := now, commit_hash := commit_hash,
        error_message := error_message, container_id := container_id,
        deployment_uuid := deployment_uuid,
        deployment_type := deployment_type }
    { db with deployments := db.deployments ++ [row],
              nextDeploymentId := db.nextDeploymentId + 1 }

/-- `ORDER BY deploy_time DESC`, modelled as an insertion sort on the
row list (SQLite fixes no order among equal keys). -/
def insertByTimeDesc (d : DeploymentRow) :
    List DeploymentRow → List DeploymentRow
  | [] => [d]
  | e :: es =>
    if e.deploy_time ≥ d.deploy_time then e :: insertByTimeDesc d es
    else d :: e :: es

/-- Sort deployment rows by `deploy_time` descending. -/
def sortByTimeDesc : List DeploymentRow → List DeploymentRow
  | [] => []
  | d :: ds => insertByTimeDesc d (sortByTimeDesc ds)

/-- `DatabaseManager.get_deployment_history(project_id, limit=50)`:
rows of one project, `deploy_time` descending, limited; `[]` on a
storage fault. -/
def get_deployment_history (fault : Bool) (db : DB) (project_id : Nat)
    (limit : Nat) : List DeploymentRow :=
  if fault then []
  else
    (sortByTimeDesc (db.deployments.filter
      (fun d => d.project_id == project_id))).take limit

/-- `DatabaseManager.get_recent_deployments(limit=20)`: deployments
joined with their project's `repo_name`, `deploy_time` descending,
limited; `[]` on a storage fault. -/
def get_recent_deployments (fault : Bool) (db : DB) (limit : Nat) :
    List (DeploymentRow × String) :=
  if fault then []
  else
    ((sortByTimeDesc db.deployments).filterMap (fun d =>
      (db.projects.find? (fun p => p.id == d.project_id)).map
        (fun p => (d, p.repo_name)))).take limit

/-- `DatabaseManager.get_project_count`: `SELECT COUNT(*)`; `0` on a
storage fault. -/
def get_project_count (fault : Bool) (db : DB) : Nat :=
  if fault then 0 else db.projects.length

/-- `DatabaseManager.get_deployment_count`: `SELECT COUNT(*)`; `0` on a
storage fault. -/
def get_deployment_count (fault : Bool) (db : DB) : Nat :=
  if fault then 0 else db.deployments.length

/-- `DatabaseManager.update_project_container_id(project_id,
container_id)`: `UPDATE projects SET container_id = ?, updated_at =
CURRENT_TIMESTAMP WHERE id = ?`; on a storage fault the handler only
logs. -/
def update_project_container_id (fault : Bool) (db : DB) (now : Nat)
    (project_id : Nat) (container_id : Option String) : DB :=
  if fault then db
  else
    { db with projects := db.projects.map (fun p =>
        if p.id == project_id then
          { p with container_id := container_id, updated_at := now }
        else p) }

/-- `DatabaseManager.delete_project(project_id)`: `DELETE FROM projects
WHERE id = ?`, returning whether a row was deleted; `False` on a storage
fault. -/
def delete_project (fault : Bool) (db : DB) (project_id : Nat) :
    Bool × DB :=
  if fault then (false, db)
  else
    let remaining := db.projects.filter (fun p => !(p.id == project_id))
    (db.projects.length - remaining.length > 0,
     { db with projects := remaining })

/-- `DatabaseManager.delete_deployment_history(project_id)`: `DELETE
FROM deployments WHERE project_id = ?`, returning the number of deleted
rows; `0` on a storage fault. -/
def delete_deployment_history (fault : Bool) (db : DB) (project_id : Nat) :
    Nat × DB :=
  if fault then (0, db)
  else
    let remaining := db.deployments.filter
      (fun d => !(d.project_id == project_id))
    (db.deployments.length - remaining.length,
     { db with deployments := remaining })

/-! ## Service layer (`app/services.py`, `Services`) -/

/-- `Services.update_project_deployment_info(repo_name, local_path=None,
container_id=None, deployment_uuid=None)`: looks the project up; when it
exists, calls `add_or_update_project(repo_name, repo_url, local_path,
container_id)` — the `deployment_uuid` argument is used only for
logging and is **not** forwarded, so the upsert writes `None` into the
row's `deployment_uuid` column.  When the project does not exist the
function only logs a warning. -/
def update_project_deployment_info (fault : Bool) (db : DB) (now : Nat)
    (repo_name : String)
    (local_path container_id deployment_uuid : Option String) : DB :=
  match get_project_by_repo_name fault db repo_name with
  | some existing =>
    (add_or_update_project fault db now repo_name existing.repo_url
      local_path container_id none).2
  | none => db

/-- `Services.log_deployment_status(project_id, status, commit_hash=None,
error_message=None, container_id=None, deployment_uuid=None,
deployment_type='blue-green')`: one `log_deployment` insert, and — only
when `status == 'success' and container_id` (Python truthiness) — an
`update_project_container_id` on the project row.  `faultLog` and
`faultUpd` are the storage-fault flags of the two registry calls. -/
def log_deployment_status (faultLog faultUpd : Bool) (db : DB) (now : Nat)
    (project_id : Nat) (status : String)
    (commit_hash error_message container_id deployment_uuid : Option String)
    (deployment_type : String) : DB :=
  let db1 := log_deployment faultLog db now project_id status commit_hash
    error_message container_id deployment_uuid deployment_type
  if status == "success" && optStrTruthy container_id then
    update_project_container_id faultUpd db1 now project_id container_id
  else db1

/-! ## Compose transformer (`app/traefik_utils.py`,
`DockerComposeModifier`)

The YAML document is modelled by the shapes the transformer reads
(spec §6: per-service fields `ports`, `environment` (list of `K=V` or
mapping), `expose` (list), `image`, `networks`, `labels`).  Python
string primitives used by the code (`int()`, `split`, `lower`,
`in`, `re.findall(r'\d+', …)` are modelled on character lists so that
everything evaluates inside Lean. -/

/-- ASCII whitespace, as stripped by Python's `int(str)`. -/
def isPySpace (c : Char) : Bool :=
  c.toNat = 32 || c.toNat = 9 || c.toNat = 10 || c.toNat = 13 ||
  c.toNat = 11 || c.toNat = 12

/-- Decimal digit test on the code point. -/
def isDigitChar (c : Char) : Bool := 48 ≤ c.toNat && c.toNat ≤ 57

/-- Value of a list of decimal digit characters. -/
def digitsToNat (l : List Char) : Nat :=
  l.foldl (fun a c => a * 10 + (c.toNat - 48)) 0

/-- Python `int(s)` for a string: strips surrounding whitespace, accepts
an optional sign followed by one or more decimal digits, and raises
(`none`) otherwise. -/
def pyInt (s : String) : Option Int :=
  let core := ((s.data.dropWhile isPySpace).reverse.dropWhile
    isPySpace).reverse
  match core with
  | [] => none
  | c :: rest =>
    if c = '-' then
      if rest ≠ [] ∧ rest.all isDigitChar then
        some (-(digitsToNat rest : Int))
      else none
    else if c = '+' then
      if rest ≠ [] ∧ rest.all isDigitChar then some (digitsToNat rest : Int)
      else none
    else if core.all isDigitChar then some (digitsToNat core : Int)
    else none

/-- The first match of `re.findall(r'\d+', s)`: the first maximal run of
decimal digits in `s`, if any. -/
def firstDigitRun (s : String) : Option Nat :=
  let run := (s.data.dropWhile (fun c => !(isDigitChar c))).takeWhile
    isDigitChar
  if run.isEmpty then none else some (digitsToNat run)

/-- Python `sep in s` / `s.split(sep)` for a one-character separator,
on the character list. -/
def splitOnChar (sep : Char) : List Char → List (List Char)
  | [] => [[]]
  | c :: cs =>
    let r := splitOnChar sep cs
    if c = sep then [] :: r
    else
      match r with
      | h :: t => (c :: h) :: t
      | [] => [[c]]

/-- Python `s.split(sep)` returning strings. -/
def pySplit (s : String) (sep : Char) : List String :=
  (splitOnChar sep s.data).map String.mk

/-- ASCII `str.lower()` on one character. -/
def lowerChar (c : Char) : Char :=
  if 65 ≤ c.toNat ∧ c.toNat ≤ 90 then Char.ofNat (c.toNat + 32) else c

/-- Python `s.lower()`. -/
def pyLower (s : String) : String := String.mk (s.data.map lowerChar)

/-- Python `sub in s` (substring containment) on character lists. -/
def listInfix (sub : List Char) : List Char → Bool
  | [] => sub.isEmpty
  | c :: cs => sub.isPrefixOf (c :: cs) || listInfix sub cs

/-- Python `sub in s` for strings. -/
def pyInStr (sub s : String) : Bool := listInfix sub.data s.data

/-- One entry of a service's `ports` list: the string, bare-integer,
long (`{target: N}`) and unrecognized shapes handled by
`_extract_and_remove_ports`. -/
inductive PortMapping where
  | strP (s : String)
  | intP (n : Int)
  | dictP (target : Option Int)
  | otherP
deriving Repr, DecidableEq

/-- One entry of a list-form `environment`; non-string entries are
skipped by `_detect_port_from_service`. -/
inductive EnvEntry where
  | strE (s : String)
  | otherE
deriving Repr, DecidableEq

/-- A service's `environment` field: absent, `K=V`-string list form,
mapping form, or some other shape (ignored by the code). -/
inductive EnvField where
  | absent
  | list (l : List EnvEntry)
  | dict (l : List (String × String))
  | other
deriving Repr, DecidableEq

/-- A service's `networks` field: absent, mapping form (only the keys
are read), list form, or some other shape. -/
inductive NetField where
  | absent
  | dict (keys : List String)
  | list (l : List String)
  | other
deriving Repr, DecidableEq

/-- A service's `labels` field: absent, mapping form, or list form
(spec §6; the transformer converts mappings to `key=value` lists). -/
inductive LabelField where
  | absent
  | dict (kvs : List (String × String))
  | list (l : List String)
deriving Repr, DecidableEq

/-- The per-service fields interpreted by the transformer. -/
structure ServiceConfig where
  image : Option String := none
  ports : Option (List PortMapping) := none
  environment : EnvField := .absent
  expose : Option (List String) := none
  networks : NetField := .absent
  labels : LabelField := .absent
deriving Repr, DecidableEq

/-- The container-side port string extracted from one `ports` entry
(`"host:container"` → the piece after the first `:`, bare strings and
integers as themselves, long form via `get('target', 80)`); `none` for
unrecognized entries (`continue`). -/
def containerPortOf : PortMapping → Option String
  | .strP s =>
    if s.data.contains ':' then some ((pySplit s ':').getD 1 "")
    else some s
  | .intP n => some (toString n)
  | .dictP t => some (toString (t.getD 80))
  | .otherP => none

/-- `DockerComposeModifier._extract_and_remove_ports`: collects the
first digit run of each recognized entry's container-port string, then
deletes the `ports` key.  Returns the collected ports and the mutated
service. -/
def extract_and_remove_ports (cfg : ServiceConfig) :
    List Int × ServiceConfig :=
  match cfg.ports with
  | none => ([], cfg)
  | some ports =>
    let exposed := ports.filterMap (fun pm =>
      (containerPortOf pm).bind (fun cp =>
        (firstDigitRun cp).map (fun k => (k : Int))))
    (exposed, { cfg with ports := none })

/-- The recognized port environment variables, in the code's order. -/
def port_env_vars : List String :=
  ["PORT", "HTTP_PORT", "SERVER_PORT", "APP_PORT", "WEB_PORT"]

/-- The environment-variable phase of `_detect_port_from_service`:
list form scans the entries in order trying each recognized variable as
a `VAR=` prefix (parse failures `continue`); mapping form tries the
recognized variables in order against the mapping. -/
def envPortOf : EnvField → Option Int
  | .list l =>
    l.findSome? (fun e =>
      match e with
      | .strE s =>
        port_env_vars.findSome? (fun pv =>
          if pyStartswith s (pv ++ "=") then pyInt ((pySplit s '=').getD 1 "")
          else none)
      | .otherE => none)
  | .dict l => port_env_vars.findSome? (fun pv => (l.lookup pv).bind pyInt)
  | _ => none

/-- The `expose` phase of `_detect_port_from_service`: the parsed first
entry of a non-empty `expose` list (a parse failure falls through). -/
def exposePortOf (cfg : ServiceConfig) : Option Int :=
  match cfg.expose with
  | none => none
  | some l =>
    match l with
    | [] => none
    | first :: _ => pyInt first

/-- The image-name phase of `_detect_port_from_service`:
case-insensitive substring defaults. -/
def imagePortOf (cfg : ServiceConfig) : Option Int :=
  match cfg.image with
  | none => none
  | some img =>
    let l := pyLower img
    if pyInStr "nginx" l then some 80
    else if pyInStr "apache" l then some 80
    else if pyInStr "node" l || pyInStr "express" l then some 3000
    else if pyInStr "python" l || pyInStr "flask" l || pyInStr "django" l
      then some 8000
    else if pyInStr "tomcat" l then some 8080
    else none

/-- `DockerComposeModifier._detect_port_from_service`: environment
variables, then `expose`, then image-name defaults, else `None`. -/
def detect_port_from_service (cfg : ServiceConfig) : Option Int :=
  match envPortOf cfg.environment with
  | some p => some p
  | none =>
    match exposePortOf cfg with
    | some p => some p
    | none => imagePortOf cfg

/-- The backend port announced in the Traefik port label, from the
result of `_extract_and_remove_ports`: the first collected port if any,
else `detected_port if detected_port else 80` (Python truthiness: a
detected `0` falls back to `80`). -/
def portFromExtracted : List Int × ServiceConfig → Int
  | (p :: _, _) => p
  | ([], cfg1) =>
    match detect_port_from_service cfg1 with
    | some d => if d ≠ 0 then d else 80
    | none => 80

/-- The backend port the transformer announces for a service. -/
def resolvedPort (cfg : ServiceConfig) : Int :=
  portFromExtracted (extract_and_remove_ports cfg)

/-- `domain_suffix` of `DockerComposeModifier`. -/
def domain_suffix : String := "localhost"

/-- The per-service subdomain: `f"{project}-{service}".lower()` with
every character outside `[a-z0-9-]` replaced by `-`
(`re.sub(r'[^a-z0-9-]', '-', subdomain)`). -/
def sanitizeSubdomain (project service : String) : String :=
  String.mk ((pyLower (project ++ "-" ++ service)).data.map (fun c =>
    if (97 ≤ c.toNat ∧ c.toNat ≤ 122) ∨ (48 ≤ c.toNat ∧ c.toNat ≤ 57)
        ∨ c = '-' then c
    else '-'))

/-- The Traefik labels appended to a service (base labels plus the
backend-port label appended by either branch of the `if exposed_ports`
conditional). -/
def traefikLabels (project service : String) (port : Int) : List String :=
  let subdomain := sanitizeSubdomain project service
  ["traefik.enable=true",
   "traefik.http.routers." ++ subdomain ++ ".rule=Host(`" ++ subdomain ++
     "." ++ domain_suffix ++ "`)",
   "traefik.http.routers." ++ subdomain ++ ".entrypoints=web",
   "traefik.docker.network=web-proxy",
   "project=" ++ project,
   "traefik.http.services." ++ subdomain ++ ".loadbalancer.server.port=" ++
     toString port]

/-- `DockerComposeModifier._configure_service_for_traefik`: normalizes
`networks` (absent → `[]` with **no** `web-proxy` appended; mapping →
keys plus `web-proxy`; list → `web-proxy` appended when missing; other →
`['web-proxy']`), normalizes `labels` to list form, extracts and removes
`ports`, and extends the labels with the Traefik labels. -/
def configure_service_for_traefik (project service_name : String)
    (cfg : ServiceConfig) : ServiceConfig :=
  let nets : List String :=
    match cfg.networks with
    | .absent => []
    | .dict keys => keys ++ ["web-proxy"]
    | .list l => if l.contains "web-proxy" then l else l ++ ["web-proxy"]
    | .other => ["web-proxy"]
  let labels0 : List String :=
    match cfg.labels with
    | .absent => []
    | .dict kvs => kvs.map (fun kv => kv.1 ++ "=" ++ kv.2)
    | .list l => l
  let ex := extract_and_remove_ports cfg
  let primary_port := portFromExtracted ex
  { ex.2 with
    networks := .list nets,
    labels := .list (labels0 ++
      traefikLabels project service_name primary_port) }

/-- A value of the top-level `networks` mapping; the transformer writes
`{'external': True}` for `web-proxy`. -/
inductive NetVal where
  | externalTrue
  | otherVal
deriving Repr, DecidableEq

/-- Python `d[k] = v` on a mapping modelled as an association list:
replacement in place for an existing key, append for a new one. -/
def upsertAssoc (l : List (String × NetVal)) (k : String) (v : NetVal) :
    List (String × NetVal) :=
  if l.any (fun kv => kv.1 == k) then
    l.map (fun kv => if kv.1 == k then (k, v) else kv)
  else l ++ [(k, v)]

/-- The top-level compose mapping: the `services` and `networks`
sections (each possibly absent) and whether any other key is present
(which decides Python truthiness of the document). -/
structure ComposeDoc where
  services : Option (List (String × ServiceConfig)) := none
  networks : Option (List (String × NetVal)) := none
  hasOtherKeys : Bool := false
deriving Repr, DecidableEq

/-- `DockerComposeModifier._add_traefik_configuration`: creates empty
`services`/`networks` sections when missing, registers `web-proxy` as an
external network, and configures every service. -/
def add_traefik_configuration (project : String) (d : ComposeDoc) :
    ComposeDoc :=
  let svcs := d.services.getD []
  let nets := d.networks.getD []
  { d with
    services := some (svcs.map (fun sc =>
      (sc.1, configure_service_for_traefik project sc.1 sc.2))),
    networks := some (upsertAssoc nets "web-proxy" .externalTrue) }

/-- The states the compose file on disk can be in, as far as
`modify_compose_file` distinguishes them: missing; present but
unparsable (`yaml.safe_load` raises); parsing to `None` or another
falsy value; parsing to a truthy non-mapping (`.get` raises
`AttributeError` inside the `try`); or parsing to a mapping. -/
inductive ComposeFile where
  | missing
  | unparsable
  | yamlNull
  | nonMapping
  | doc (d : ComposeDoc)
deriving Repr, DecidableEq

/-- `DockerComposeModifier.modify_compose_file`: returns `False` for a
missing file, a parse error, a falsy document and a non-mapping
document (the exception paths are all inside the `try` and the write
happens last, so the file is untouched); otherwise mutates the document
and rewrites the file. -/
def modify_compose_file (project : String) (file : ComposeFile) :
    Bool × ComposeFile :=
  match file with
  | .missing => (false, .missing)
  | .unparsable => (false, .unparsable)
  | .yamlNull => (false, .yamlNull)
  | .nonMapping => (false, .nonMapping)
  | .doc d =>
    if !(d.services.isSome || d.networks.isSome || d.hasOtherKeys) then
      (false, .doc d)
    else (true, .doc (add_traefik_configuration project d))

/-! ## The `/webhook` endpoint (`app/routes.py`) -/

/-- The `repository` object of a webhook payload, with its `.get`-read
fields. -/
structure RepoInfo where
  name : Option String := none
  html_url : Option String := none
deriving Repr, DecidableEq

/-- The `head_commit` member of a webhook payload: absent, present but
falsy (`None`/`{}`), or a truthy object with an optional `id`. -/
inductive HeadCommit where
  | absent
  | falsy
  | present (id : Option String)
deriving Repr, DecidableEq

/-- A webhook payload, restricted to the fields the code reads. -/
structure WebhookPayload where
  repository : Option RepoInfo := none
  head_commit : HeadCommit := .absent
deriving Repr, DecidableEq

/-- The dictionary returned by `Services.process_webhook`. -/
structure ProcessedData where
  repo_name : Option String
  repo_url : Option String
  commit_hash : Option String
deriving Repr, DecidableEq

/-- `Services.process_webhook`: extracts `repository.name`,
`repository.html_url` and `head_commit.id`.  When `head_commit` is
present and truthy but carries no `id`, the log line
`f"… {commit_hash[:8]}…"` subscripts `None` and raises `TypeError`
(modelled as `Except.error`), which propagates to the caller. -/
def process_webhook (p : WebhookPayload) : Except Unit ProcessedData :=
  match p.head_commit with
  | .present none => .error ()
  | .present (some h) =>
    .ok { repo_name := p.repository.bind (fun r => r.name),
          repo_url := p.repository.bind (fun r => r.html_url),
          commit_hash := some h }
  | _ =>
    .ok { repo_name := p.repository.bind (fun r => r.name),
          repo_url := p.repository.bind (fun r => r.html_url),
          commit_hash := none }

/-- The `/webhook` route handler of `app/routes.py`, up to its first
registry mutation: signature verification (403), the `is_json` check
(400), payload processing (a `TypeError` escaping to Flask produces a
500), and the repository-name check (400).  Everything from
`get_or_create_project` on — the first state mutation — is the
abstract continuation `rest`.  The result is the HTTP status code and
the registry state. -/
def webhook (hmacHex : String → List Nat → String)
    (rest : DB → ProcessedData → Nat × DB) (db : DB)
    (raw_body : List Nat) (signature_header secret : Option String)
    (is_json : Bool) (payload : WebhookPayload) : Nat × DB :=
  if !(verify_github_webhook hmacHex raw_body signature_header secret) then
    (403, db)
  else if is_json then
    match process_webhook payload with
    | .error _ => (500, db)
    | .ok pd =>
      if !(optStrTruthy pd.repo_name) then (400, db)
      else rest db pd
  else (400, db)

/-! ## Derived observations used by the theorems -/

/-- The number of project rows carrying a given `repo_name`. -/
def countName (db : DB) (n : String) : Nat :=
  (db.projects.filter (fun p => p.repo_name == n)).length

/-- A service's labels as the canonical list of strings (the mapping
form as its `key=value` rendering). -/
def labelList : LabelField → List String
  | .absent => []
  | .dict kvs => kvs.map (fun kv => kv.1 ++ "=" ++ kv.2)
  | .list l => l

/-- A service's network names as a list of strings. -/
def netList : NetField → List String
  | .absent => []
  | .dict keys => keys
  | .list l => l
  | .other => []

/-- Occurrences of the routing-enabled label in a service's labels. -/
def enableCount (cfg : ServiceConfig) : Nat :=
  (labelList cfg.labels).count "traefik.enable=true"

/-- Occurrences of the shared external network in a service's
networks. -/
def webProxyCount (cfg : ServiceConfig) : Nat :=
  (netList cfg.networks).count "web-proxy"

/-! # Theorems

## C1 — signature verification -/

lemma pyStartswith_append (s : String) :
    pyStartswith ("sha256=" ++ s) "sha256=" = true := by
  simp only [pyStartswith, String.data_append]
  rw [List.isPrefixOf_iff_prefix]
  exact List.prefix_append _ _

lemma sha256_append_ne_empty (s : String) : ("sha256=" ++ s) ≠ "" := by
  intro h
  have hl := congrArg String.length h
  rw [String.length_append] at hl
  rw [show ("sha256=" : String).length = 7 from rfl] at hl
  rw [show ("" : String).length = 0 from rfl] at hl
  omega

lemma drop7_sha256_append (s : String) : pyDrop ("sha256=" ++ s) 7 = s := by
  unfold pyDrop
  rw [String.data_append]
  rw [show ("sha256=".data : List Char) = ['s','h','a','2','5','6','='] from rfl]
  simp

/-- **C1.** With the HMAC-SHA256 hex digest taken as an abstract primitive
`hm`: for every byte payload `B` and non-empty secret `S`, the verifier
accepts the header `"sha256=" ++ hm S B`; it rejects any payload/secret
pair whose digest differs from `hm S B` (which is what "any altered byte
in `B` or a different secret" means up to the collision-freeness of
HMAC-SHA256); and it rejects a missing header, a missing or empty
secret, and any header that does not start with the literal prefix
`"sha256="`. -/
theorem verify_github_webhook_correct (hm : String → List Nat → String)
    (B : List Nat) (S : String) (hS : S ≠ "") :
    verify_github_webhook hm B (some ("sha256=" ++ hm S B)) (some S) = true
    ∧ (∀ (B' : List Nat) (S' : String), S' ≠ "" → hm S' B' ≠ hm S B →
        verify_github_webhook hm B' (some ("sha256=" ++ hm S B)) (some S') = false)
    ∧ verify_github_webhook hm B none (some S) = false
    ∧ (∀ h : String, verify_github_webhook hm B (some h) none = false)
    ∧ (∀ h : String, pyStartswith h "sha256=" = false →
        verify_github_webhook hm B (some h) (some S) = false) := by
  refine ⟨?_, ?_, ?_, ?_, ?_⟩
  · simp [verify_github_webhook, sha256_append_ne_empty, hS,
      pyStartswith_append, drop7_sha256_append]
  · intro B' S' hS' hne
    simp [verify_github_webhook, sha256_append_ne_empty, hS',
      pyStartswith_append, drop7_sha256_append, Ne.symm hne]
  · rfl
  · intro h
    cases hh : (h == "") <;> simp [verify_github_webhook, hh]
  · intro h hpre
    by_cases hh : h = "" <;>
      simp [verify_github_webhook, hh, hS, hpre]

/-- Witness for `verify_github_webhook_correct` at a concrete digest
function, payload and secret. -/
theorem verify_github_webhook_correct_witness :
    verify_github_webhook (fun s b => s ++ toString b.length) [10, 20]
      (some ("sha256=" ++ ("k" ++ toString ([10, 20] : List Nat).length)))
      (some "k") = true
    ∧ verify_github_webhook (fun s b => s ++ toString b.length) [10, 20]
        none (some "k") = false := by
  have h := verify_github_webhook_correct (fun s b => s ++ toString b.length)
    [10, 20] "k" (by decide)
  exact ⟨h.1, h.2.2.1⟩

/-! ## C6 — registry fault handling -/

/-- **C6.** Every registry operation catches a storage-layer fault
inside the operation and surfaces it as its documented empty result or
failure indicator (`None`, `[]`, `0`, `False`, or a silent no-op),
leaving the state unchanged; the operations are total Lean functions,
so no exception crosses the registry boundary. -/
theorem registry_fault_is_caught (db : DB) (now pid limit : Nat)
    (n url status dt : String) (lp ci du ch em : Option String) :
    get_project_by_repo_name true db n = none
    ∧ get_project_by_id true db pid = none
    ∧ add_or_update_project true db now n url lp ci du = (none, db)
    ∧ log_deployment true db now pid status ch em ci du dt = db
    ∧ get_deployment_history true db pid limit = []
    ∧ get_recent_deployments true db limit = []
    ∧ get_project_count true db = 0
    ∧ get_deployment_count true db = 0
    ∧ update_project_container_id true db now pid ci = db
    ∧ delete_project true db pid = (false, db)
    ∧ delete_deployment_history true db pid = (0, db) :=
  ⟨rfl, rfl, rfl, rfl, rfl, rfl, rfl, rfl, rfl, rfl, rfl⟩

/-! ## C2 / C9 / C10 — upsert semantics -/

lemma find?_map_comm {α : Type} (g : α → α) (q : α → Bool)
    (h : ∀ a, q (g a) = q a) (l : List α) :
    (l.map g).find? q = (l.find? q).map g := by
  rw [List.find?_map]
  have hqg : q ∘ g = q := funext h
  rw [hqg]

lemma filter_map_comm_length {α : Type} (g : α → α) (q : α → Bool)
    (h : ∀ a, q (g a) = q a) (l : List α) :
    ((l.map g).filter q).length = (l.filter q).length := by
  rw [List.filter_map]
  have hqg : q ∘ g = q := funext h
  rw [hqg, List.length_map]

lemma applyProjectUpdate_pred (n url : String) (lp ci du : Option String)
    (t : Nat) (a : ProjectRow) :
    ((if a.repo_name == n then applyProjectUpdate url lp ci du t a
      else a).repo_name == n) = (a.repo_name == n) := by
  cases h : (a.repo_name == n) <;> simp [h, applyProjectUpdate]

lemma upsert_found (db : DB) (t : Nat) (n url : String)
    (lp ci du : Option String) (p0 : ProjectRow)
    (hf : db.projects.find? (fun p => p.repo_name == n) = some p0) :
    add_or_update_project false db t n url lp ci du =
      (some p0.id,
       { db with projects := db.projects.map (fun p =>
           if p.repo_name == n then applyProjectUpdate url lp ci du t p
           else p) }) := by
  simp [add_or_update_project, hf]

lemma upsert_new (db : DB) (t : Nat) (n url : String)
    (lp ci du : Option String)
    (hf : db.projects.find? (fun p => p.repo_name == n) = none) :
    add_or_update_project false db t n url lp ci du =
      (some db.nextProjectId,
       { db with
         projects := db.projects ++
           [{ id := db.nextProjectId, repo_name := n, repo_url := url,
              local_path := lp, container_id := ci, deployment_uuid := du,
              created_at := t, updated_at := t }],
         nextProjectId := db.nextProjectId + 1 }) := by
  simp [add_or_update_project, hf]

lemma upsert_update_props (db : DB) (t : Nat) (n url : String)
    (lp ci du : Option String) (p0 : ProjectRow)
    (hf : db.projects.find? (fun p => p.repo_name == n) = some p0) :
    (add_or_update_project false db t n url lp ci du).1 = some p0.id
    ∧ (add_or_update_project false db t n url lp ci du).2.projects.find?
        (fun p => p.repo_name == n)
        = some (applyProjectUpdate url lp ci du t p0)
    ∧ (∀ p' ∈ (add_or_update_project false db t n url lp ci du).2.projects,
        p'.repo_name = n → ∃ a ∈ db.projects, a.repo_name = n
          ∧ p' = applyProjectUpdate url lp ci du t a)
    ∧ countName (add_or_update_project false db t n url lp ci du).2 n
        = countName db n := by
  rw [upsert_found db t n url lp ci du p0 hf]
  have hq0 : (p0.repo_name == n) = true := by
    simpa using List.find?_some hf
  refine ⟨rfl, ?_, ?_, ?_⟩
  · show (db.projects.map (fun p =>
        if p.repo_name == n then applyProjectUpdate url lp ci du t p
        else p)).find? (fun p => p.repo_name == n)
      = some (applyProjectUpdate url lp ci du t p0)
    rw [find?_map_comm _ _ (applyProjectUpdate_pred n url lp ci du t), hf]
    have hpn : p0.repo_name = n := by simpa using hq0
    simp [hpn]
  · intro p' hp' hn
    rcases List.mem_map.mp hp' with ⟨a, ha, rfl⟩
    by_cases hqa : (a.repo_name == n) = true
    · exact ⟨a, ha, by simpa using hqa, by simp [hqa]⟩
    · rw [Bool.not_eq_true] at hqa
      simp [hqa] at hn
      simp [hn] at hqa
  · exact filter_map_comm_length _ _
      (applyProjectUpdate_pred n url lp ci du t) db.projects

lemma upsert_insert_props (db : DB) (t : Nat) (n url : String)
    (lp ci du : Option String)
    (hf : db.projects.find? (fun p => p.repo_name == n) = none) :
    (add_or_update_project false db t n url lp ci du).1 = some db.nextProjectId
    ∧ (add_or_update_project false db t n url lp ci du).2.projects.find?
        (fun p => p.repo_name == n)
        = some { id := db.nextProjectId, repo_name := n, repo_url := url,
                 local_path := lp, container_id := ci,
                 deployment_uuid := du, created_at := t, updated_at := t }
    ∧ (∀ p' ∈ (add_or_update_project false db t n url lp ci du).2.projects,
        p'.repo_name = n →
          p' = { id := db.nextProjectId, repo_name := n, repo_url := url,
                 local_path := lp, container_id := ci,
                 deployment_uuid := du, created_at := t, updated_at := t })
    ∧ countName (add_or_update_project false db t n url lp ci du).2 n
        = countName db n + 1
    ∧ countName db n = 0 := by
  rw [upsert_new db t n url lp ci du hf]
  have hnil : db.projects.filter (fun p => p.repo_name == n) = [] := by
    rw [List.filter_eq_nil_iff]
    exact fun a ha => (List.find?_eq_none.mp hf) a ha
  refine ⟨rfl, ?_, ?_, ?_, ?_⟩
  · show (db.projects ++
        ([{ id := db.nextProjectId, repo_name := n, repo_url := url,
            local_path := lp, container_id := ci, deployment_uuid := du,
            created_at := t, updated_at := t }] : List ProjectRow)).find?
        (fun p => p.repo_name == n)
      = some ({ id := db.nextProjectId, repo_name := n, repo_url := url,
                local_path := lp, container_id := ci,
                deployment_uuid := du, created_at := t,
                updated_at := t } : ProjectRow)
    rw [List.find?_append, hf]
    simp [List.find?]
  · intro p' hp' hn
    rcases List.mem_append.mp hp' with h | h
    · exact absurd (beq_iff_eq.mpr hn) (List.find?_eq_none.mp hf p' h)
    · exact List.mem_singleton.mp h
  · show ((db.projects ++
        ([{ id := db.nextProjectId, repo_name := n, repo_url := url,
            local_path := lp, container_id := ci, deployment_uuid := du,
            created_at := t, updated_at := t }] : List ProjectRow)).filter
        (fun p => p.repo_name == n)).length = countName db n + 1
    rw [List.filter_append]
    simp [countName, List.filter]
  · simp [countName, hnil]

/-- **C2.** Upserting the same `repo_name` twice (fault-free, from a
state satisfying the schema's `repo_name UNIQUE` invariant) returns the
same project id both times; after the second call every row named
`repo_name` carries the second call's `repo_url` and `container_id` but
keeps the `id` and `created_at` it had after the first call; and the
second call creates no second row for that `repo_name`. -/
theorem add_or_update_project_upsert_twice (db : DB) (n url1 url2 : String)
    (lp1 ci1 du1 lp2 ci2 du2 : Option String) (t1 t2 : Nat)
    (huniq : countName db n ≤ 1)
    (r1 : Option Nat × DB)
    (hr1 : r1 = add_or_update_project false db t1 n url1 lp1 ci1 du1)
    (r2 : Option Nat × DB)
    (hr2 : r2 = add_or_update_project false r1.2 t2 n url2 lp2 ci2 du2) :
    r1.1.isSome = true ∧ r2.1 = r1.1
    ∧ (∀ p ∈ r2.2.projects, p.repo_name = n →
        p.repo_url = url2 ∧ p.container_id = ci2)
    ∧ (∀ p ∈ r2.2.projects, p.repo_name = n →
        ∃ q ∈ r1.2.projects, q.repo_name = n ∧ q.id = p.id ∧
          q.created_at = p.created_at)
    ∧ countName r2.2 n = countName r1.2 n ∧ countName r1.2 n ≤ 1 := by
  subst hr2
  subst hr1
  cases hf : db.projects.find? (fun p => p.repo_name == n) with
  | some p0 =>
    obtain ⟨h1, hfind1, hmem1, hcount1⟩ :=
      upsert_update_props db t1 n url1 lp1 ci1 du1 p0 hf
    obtain ⟨h2, hfind2, hmem2, hcount2⟩ :=
      upsert_update_props (add_or_update_project false db t1 n url1 lp1
        ci1 du1).2 t2 n url2 lp2 ci2 du2 _ hfind1
    refine ⟨?_, ?_, ?_, ?_, ?_, ?_⟩
    · rw [h1]; rfl
    · rw [h2, h1]; rfl
    · intro p hp hn
      rcases hmem2 p hp hn with ⟨a, ha, han, rfl⟩
      exact ⟨rfl, rfl⟩
    · intro p hp hn
      rcases hmem2 p hp hn with ⟨a, ha, han, rfl⟩
      exact ⟨a, ha, han, rfl, rfl⟩
    · rw [hcount2]
    · rw [hcount1]; exact huniq
  | none =>
    obtain ⟨h1, hfind1, hmem1, hcount1, hzero⟩ :=
      upsert_insert_props db t1 n url1 lp1 ci1 du1 hf
    obtain ⟨h2, hfind2, hmem2, hcount2⟩ :=
      upsert_update_props (add_or_update_project false db t1 n url1 lp1
        ci1 du1).2 t2 n url2 lp2 ci2 du2 _ hfind1
    refine ⟨?_, ?_, ?_, ?_, ?_, ?_⟩
    · rw [h1]; rfl
    · rw [h2, h1]
    · intro p hp hn
      rcases hmem2 p hp hn with ⟨a, ha, han, rfl⟩
      exact ⟨rfl, rfl⟩
    · intro p hp hn
      rcases hmem2 p hp hn with ⟨a, ha, han, rfl⟩
      exact ⟨a, ha, han, rfl, rfl⟩
    · rw [hcount2]
    · rw [hcount1, hzero]

/-- Witness for `add_or_update_project_upsert_twice` on an initially
empty registry. -/
theorem add_or_update_project_upsert_twice_witness :
    let db0 : DB := ⟨[], [], 1, 1⟩
    let r1 := add_or_update_project false db0 5 "repo" "u1" none none none
    let r2 := add_or_update_project false r1.2 6 "repo" "u2" none
      (some "c") none
    r1.1.isSome = true ∧ r2.1 = r1.1
    ∧ (∀ p ∈ r2.2.projects, p.repo_name = "repo" →
        p.repo_url = "u2" ∧ p.container_id = some "c")
    ∧ (∀ p ∈ r2.2.projects, p.repo_name = "repo" →
        ∃ q ∈ r1.2.projects, q.repo_name = "repo" ∧ q.id = p.id ∧
          q.created_at = p.created_at)
    ∧ countName r2.2 "repo" = countName r1.2 "repo"
    ∧ countName r1.2 "repo" ≤ 1 :=
  add_or_update_project_upsert_twice ⟨[], [], 1, 1⟩ "repo" "u1" "u2"
    none none none none (some "c") none 5 6 (by decide) _ rfl _ rfl

/-- **C9.** A fault-free upsert on an existing project overwrites
`local_path`, `container_id` and `deployment_uuid` of every row of that
`repo_name` with exactly the argument values — including `none` for an
omitted optional argument: omitted optionals are nulled out, not
preserved. -/
theorem upsert_overwrites_optional_fields (db : DB) (t : Nat)
    (n url : String) (lp ci du : Option String) (p0 : ProjectRow)
    (hf : db.projects.find? (fun p => p.repo_name == n) = some p0) :
    ∀ p ∈ (add_or_update_project false db t n url lp ci du).2.projects,
      p.repo_name = n →
        p.local_path = lp ∧ p.container_id = ci ∧
          p.deployment_uuid = du := by
  intro p hp hn
  rcases (upsert_update_props db t n url lp ci du p0 hf).2.2.1 p hp hn
    with ⟨a, _, _, rfl⟩
  exact ⟨rfl, rfl, rfl⟩

/-- Witness for `upsert_overwrites_optional_fields`: an existing row
with all optional fields populated, updated with all three omitted;
the updated row has them all nulled out. -/
theorem upsert_overwrites_optional_fields_witness :
    (⟨1, "r", "u2", none, none, none, 0, 9⟩ : ProjectRow).local_path = none
    ∧ (⟨1, "r", "u2", none, none, none, 0, 9⟩ : ProjectRow).container_id
        = none
    ∧ (⟨1, "r", "u2", none, none, none, 0, 9⟩ : ProjectRow).deployment_uuid
        = none :=
  upsert_overwrites_optional_fields
    ⟨[⟨1, "r", "u", some "lp", some "ci", some "du", 0, 0⟩], [], 2, 1⟩
    9 "r" "u2" none none none
    ⟨1, "r", "u", some "lp", some "ci", some "du", 0, 0⟩ (by decide)
    ⟨1, "r", "u2", none, none, none, 0, 9⟩ (by decide) rfl

/-- **C10.** `Services.update_project_deployment_info` never forwards
its `deployment_uuid` argument: its result does not depend on that
argument at all, and on an existing project every row of that
`repo_name` is left with `deployment_uuid = none` (while `local_path`
and `container_id` take the argument values). -/
theorem update_project_deployment_info_nulls_uuid (db : DB) (t : Nat)
    (n : String) (lp ci du : Option String) (p0 : ProjectRow)
    (hf : db.projects.find? (fun p => p.repo_name == n) = some p0) :
    (∀ du' : Option String,
      update_project_deployment_info false db t n lp ci du
        = update_project_deployment_info false db t n lp ci du')
    ∧ ∀ p ∈ (update_project_deployment_info false db t n lp ci du).projects,
        p.repo_name = n → p.deployment_uuid = none
          ∧ p.local_path = lp ∧ p.container_id = ci := by
  have hg : get_project_by_repo_name false db n = some p0 := by
    simp [get_project_by_repo_name, hf]
  have he : update_project_deployment_info false db t n lp ci du
      = (add_or_update_project false db t n p0.repo_url lp ci none).2 := by
    unfold update_project_deployment_info
    rw [hg]
  constructor
  · intro du'; rfl
  · intro p hp hn
    rw [he] at hp
    rcases (upsert_update_props db t n p0.repo_url lp ci none p0 hf).2.2.1
      p hp hn with ⟨a, _, _, rfl⟩
    exact ⟨rfl, rfl, rfl⟩

/-- Witness for `update_project_deployment_info_nulls_uuid`: a truthy
`deployment_uuid` argument is still written as `none` on the updated
row. -/
theorem update_project_deployment_info_nulls_uuid_witness :
    (⟨1, "r", "u", none, some "c", none, 0, 9⟩ :
      ProjectRow).deployment_uuid = none
    ∧ (⟨1, "r", "u", none, some "c", none, 0, 9⟩ :
        ProjectRow).local_path = none
    ∧ (⟨1, "r", "u", none, some "c", none, 0, 9⟩ :
        ProjectRow).container_id = some "c" :=
  (update_project_deployment_info_nulls_uuid
    ⟨[⟨1, "r", "u", none, none, some "old-uuid", 0, 0⟩], [], 2, 1⟩
    9 "r" none (some "c") (some "new-uuid")
    ⟨1, "r", "u", none, none, some "old-uuid", 0, 0⟩ (by decide)).2
    ⟨1, "r", "u", none, some "c", none, 0, 9⟩ (by decide) rfl

/-! ## C7 — recording a deployment -/

/-- **C7.** A fault-free `Services.log_deployment_status` appends
exactly one audit row to `deployments`, and it touches the `projects`
table if and only if `status = "success"` and the `container_id`
argument is present (truthy): in that case the matching project's
`container_id` is overwritten; in every other case — in particular for
a `"failed"` row — the projects are unchanged. -/
theorem log_deployment_status_effects (db : DB) (now pid : Nat)
    (status : String) (ch em ci du : Option String) (dt : String)
    (db' : DB)
    (hdb' : db' = log_deployment_status false false db now pid status
      ch em ci du dt) :
    db'.deployments = db.deployments ++
      [{ id := db.nextDeploymentId, project_id := pid, status := status,
         deploy_time := now, commit_hash := ch, error_message := em,
         container_id := ci, deployment_uuid := du,
         deployment_type := dt }]
    ∧ ((status = "success" ∧ optStrTruthy ci = true) →
        db'.projects = db.projects.map (fun p =>
          if p.id == pid then
            { p with container_id := ci, updated_at := now }
          else p))
    ∧ (¬(status = "success" ∧ optStrTruthy ci = true) →
        db'.projects = db.projects)
    ∧ (status = "failed" → db'.projects = db.projects) := by
  subst hdb'
  by_cases hc : (status == "success" && optStrTruthy ci) = true
  · have hs : status = "success" ∧ optStrTruthy ci = true := by
      simpa [Bool.and_eq_true, beq_iff_eq] using hc
    refine ⟨?_, fun _ => ?_, fun hn => absurd hs hn, fun hfail => ?_⟩
    · simp [log_deployment_status, log_deployment,
        update_project_container_id, hc]
    · simp [log_deployment_status, log_deployment,
        update_project_container_id, hc]
    · rw [hfail] at hs
      exact absurd hs.1 (by decide)
  · have hns : ¬(status = "success" ∧ optStrTruthy ci = true) := by
      intro h
      exact hc (by simp [h.1, h.2])
    refine ⟨?_, fun h => absurd h hns, fun _ => ?_, fun _ => ?_⟩
    · simp [log_deployment_status, log_deployment, hc]
    · simp [log_deployment_status, log_deployment, hc]
    · simp [log_deployment_status, log_deployment, hc]

/-- Witness for `log_deployment_status_effects`: a `"failed"` row (the
timeout path) appends one audit row and leaves the project untouched. -/
theorem log_deployment_status_effects_witness :
    let db0 : DB := ⟨[⟨1, "r", "u", none, some "old", none, 0, 0⟩], [], 2, 1⟩
    let db' := log_deployment_status false false db0 7 1 "failed" none
      (some "Deployment timed out") none none "blue-green"
    db'.deployments = db0.deployments ++
      [⟨1, 1, "failed", 7, none, some "Deployment timed out", none, none,
        "blue-green"⟩]
    ∧ db'.projects = db0.projects := by
  refine ⟨(log_deployment_status_effects _ 7 1 "failed" none
    (some "Deployment timed out") none none "blue-green" _ rfl).1, ?_⟩
  exact (log_deployment_status_effects _ 7 1 "failed" none
    (some "Deployment timed out") none none "blue-green" _ rfl).2.2.2 rfl

/-! ## C3 — transformer label/network counts under repeated runs -/

lemma ne_enable_of_long (s : String)
    (h : 19 < s.length) : s ≠ "traefik.enable=true" := by
  intro he
  rw [he] at h
  exact absurd h (by decide)

lemma length_append_left_lt (a b : String) (h : 19 < a.length) :
    19 < (a ++ b).length := by
  rw [String.length_append]
  omega

lemma project_ne_enable (p : String) :
    ("project=" ++ p) ≠ "traefik.enable=true" := by
  intro h
  have hd := congrArg String.data h
  rw [String.data_append] at hd
  simp at hd

lemma count_enable_traefikLabels (p n : String) (port : Int) :
    (traefikLabels p n port).count "traefik.enable=true" = 1 := by
  have hbase1 : 19 < ("traefik.http.routers." : String).length := by decide
  have hbase2 : 19 < ("traefik.http.services." : String).length := by decide
  have h1 : ("traefik.http.routers." ++ sanitizeSubdomain p n ++
      ".rule=Host(`" ++ sanitizeSubdomain p n ++ "." ++ domain_suffix ++
      "`)") ≠ "traefik.enable=true" :=
    ne_enable_of_long _ (length_append_left_lt _ _
      (length_append_left_lt _ _ (length_append_left_lt _ _
        (length_append_left_lt _ _ (length_append_left_lt _ _
          (length_append_left_lt _ _ hbase1))))))
  have h2 : ("traefik.http.routers." ++ sanitizeSubdomain p n ++
      ".entrypoints=web") ≠ "traefik.enable=true" :=
    ne_enable_of_long _ (length_append_left_lt _ _
      (length_append_left_lt _ _ hbase1))
  have h3 : ("traefik.docker.network=web-proxy" : String)
      ≠ "traefik.enable=true" := by decide
  have h4 : ("project=" ++ p) ≠ "traefik.enable=true" :=
    project_ne_enable p
  have h5 : ("traefik.http.services." ++ sanitizeSubdomain p n ++
      ".loadbalancer.server.port=" ++ toString port)
      ≠ "traefik.enable=true" :=
    ne_enable_of_long _ (length_append_left_lt _ _
      (length_append_left_lt _ _ (length_append_left_lt _ _ hbase2)))
  unfold traefikLabels
  simp [List.count_cons, List.count_nil, h1, h2, h3, h4, h5]

lemma enableCount_configure (p n : String) (cfg : ServiceConfig) :
    enableCount (configure_service_for_traefik p n cfg)
      = enableCount cfg + 1 := by
  cases cfg.labels <;>
    simp [configure_service_for_traefik, enableCount, labelList,
      List.count_append, count_enable_traefikLabels]

lemma webProxyCount_configure (p n : String) (cfg : ServiceConfig)
    (hwp : webProxyCount cfg = 0) :
    webProxyCount (configure_service_for_traefik p n cfg)
      = (match cfg.networks with
         | NetField.absent => 0
         | _ => 1) := by
  cases hnet : cfg.networks with
  | absent =>
    simp [configure_service_for_traefik, webProxyCount, netList, hnet]
  | dict keys =>
    have hk : keys.count "web-proxy" = 0 := by
      simpa [webProxyCount, netList, hnet] using hwp
    simp [configure_service_for_traefik, webProxyCount, netList, hnet,
      List.count_append, hk]
  | list l =>
    have hk : l.count "web-proxy" = 0 := by
      simpa [webProxyCount, netList, hnet] using hwp
    have hmem : "web-proxy" ∉ l := List.count_eq_zero.mp hk
    simp [configure_service_for_traefik, webProxyCount, netList, hnet,
      List.count_append, hk, hmem]
  | other =>
    simp [configure_service_for_traefik, webProxyCount, netList, hnet]

lemma webProxyCount_configure_again (p n : String) (cfg : ServiceConfig)
    (hwp : webProxyCount cfg = 0) :
    webProxyCount (configure_service_for_traefik p n
      (configure_service_for_traefik p n cfg)) = 1 := by
  cases hnet : cfg.networks with
  | absent =>
    simp [configure_service_for_traefik, webProxyCount, netList, hnet,
      List.count_append]
  | dict keys =>
    have hk : keys.count "web-proxy" = 0 := by
      simpa [webProxyCount, netList, hnet] using hwp
    have hmem : "web-proxy" ∈ keys ++ ["web-proxy"] := by simp
    simp [configure_service_for_traefik, webProxyCount, netList, hnet,
      List.count_append, hk, hmem]
  | list l =>
    have hk : l.count "web-proxy" = 0 := by
      simpa [webProxyCount, netList, hnet] using hwp
    have hmem : "web-proxy" ∉ l := List.count_eq_zero.mp hk
    have hmem2 : "web-proxy" ∈ l ++ ["web-proxy"] := by simp
    simp [configure_service_for_traefik, webProxyCount, netList, hnet,
      List.count_append, hk, hmem, hmem2]
  | other =>
    simp [configure_service_for_traefik, webProxyCount, netList, hnet]

/-- **C3 (amended).** The transformer is *not* structurally idempotent.
For a service whose labels do not yet carry the routing-enabled label
and whose networks do not yet carry the shared network: one application
puts `traefik.enable=true` exactly once in the label list, but puts
`web-proxy` in the network list exactly once only when the service had
a `networks` field — a service without one gets **zero** occurrences;
a second application brings `web-proxy` to exactly one occurrence in
every case but appends the Traefik labels again, so
`traefik.enable=true` then appears exactly twice. -/
theorem configure_service_twice_counts (p n : String)
    (cfg : ServiceConfig)
    (hwp : webProxyCount cfg = 0) (hen : enableCount cfg = 0)
    (c1 c2 : ServiceConfig)
    (hc1 : c1 = configure_service_for_traefik p n cfg)
    (hc2 : c2 = configure_service_for_traefik p n c1) :
    enableCount c1 = 1 ∧ enableCount c2 = 2
    ∧ webProxyCount c1 = (match cfg.networks with
        | NetField.absent => 0
        | _ => 1)
    ∧ webProxyCount c2 = 1 := by
  subst hc2
  subst hc1
  refine ⟨?_, ?_, ?_, ?_⟩
  · rw [enableCount_configure, hen]
  · rw [enableCount_configure, enableCount_configure, hen]
  · exact webProxyCount_configure p n cfg hwp
  · exact webProxyCount_configure_again p n cfg hwp

/-- Witness for `configure_service_twice_counts` on a service with a
list-form network and an unrelated label. -/
theorem configure_service_twice_counts_witness :
    enableCount (configure_service_for_traefik "proj" "web"
      { networks := .list ["default"], labels := .list ["a=b"] }) = 1
    ∧ enableCount (configure_service_for_traefik "proj" "web"
        (configure_service_for_traefik "proj" "web"
          { networks := .list ["default"], labels := .list ["a=b"] })) = 2
    ∧ webProxyCount (configure_service_for_traefik "proj" "web"
        { networks := .list ["default"], labels := .list ["a=b"] }) = 1
    ∧ webProxyCount (configure_service_for_traefik "proj" "web"
        (configure_service_for_traefik "proj" "web"
          { networks := .list ["default"], labels := .list ["a=b"] })) = 1 := by
  have h := configure_service_twice_counts "proj" "web"
    { networks := .list ["default"], labels := .list ["a=b"] }
    (by decide) (by decide) _ _ rfl rfl
  exact ⟨h.1, h.2.1, h.2.2.1, h.2.2.2⟩

/-- **C3 counterexample.** On the document with one service carrying no
fields at all, the claim fails both ways: after two applications the
routing-enabled label appears twice (not once) in the service's label
list, and after one application the shared network appears zero times
(not once) in the service's network list. -/
theorem transformer_not_structurally_idempotent :
    ((add_traefik_configuration "p" (add_traefik_configuration "p"
        { services := some [("web", {})] })).services.getD []).map
      (fun sc => enableCount sc.2) = [2]
    ∧ ((add_traefik_configuration "p"
        { services := some [("web", {})] }).services.getD []).map
      (fun sc => webProxyCount sc.2) = [0] := by decide

/-! ## C4 — backend-port resolution precedence -/

lemma portFromExtracted_eq (x : List Int × ServiceConfig) :
    portFromExtracted x
      = match x.1 with
        | p :: _ => p
        | [] =>
          match detect_port_from_service x.2 with
          | some d => if d ≠ 0 then d else 80
          | none => 80 := by
  rcases x with ⟨l, c⟩
  cases l <;> rfl

lemma extract_preserves_detection (cfg : ServiceConfig) :
    detect_port_from_service (extract_and_remove_ports cfg).2
      = detect_port_from_service cfg := by
  cases hp : cfg.ports <;>
    simp [extract_and_remove_ports, detect_port_from_service,
      envPortOf, exposePortOf, imagePortOf, hp]

lemma detect_from_env (cfg : ServiceConfig) (v : Int)
    (h : envPortOf cfg.environment = some v) :
    detect_port_from_service cfg = some v := by
  unfold detect_port_from_service
  rw [h]

lemma detect_from_expose (cfg : ServiceConfig) (v : Int)
    (he : envPortOf cfg.environment = none)
    (h : exposePortOf cfg = some v) :
    detect_port_from_service cfg = some v := by
  unfold detect_port_from_service
  rw [he, h]

lemma detect_from_image (cfg : ServiceConfig)
    (he : envPortOf cfg.environment = none)
    (hx : exposePortOf cfg = none) :
    detect_port_from_service cfg = imagePortOf cfg := by
  unfold detect_port_from_service
  rw [he, hx]

/-- **C4 (amended).** The backend port announced in the routing label
follows first-match-wins precedence — (1) the first port parsed from
the collected port mappings, (2) a recognized port environment
variable, (3) the first entry of an `expose` list, (4) the image-name
default, (5) the constant 80 — with one deviation from the claim: a
value of `0` detected in steps (2)–(4) is falsy in Python, so the
resolver then announces 80 instead of 0 (and does not consult the later
steps).  The claim's four concrete scenarios all hold. -/
theorem resolved_port_precedence (cfg : ServiceConfig) :
    (∀ (p : Int) (ps : List Int),
      (extract_and_remove_ports cfg).1 = p :: ps →
        resolvedPort cfg = p)
    ∧ ((extract_and_remove_ports cfg).1 = [] →
       ∀ v : Int, envPortOf cfg.environment = some v → v ≠ 0 →
         resolvedPort cfg = v)
    ∧ ((extract_and_remove_ports cfg).1 = [] →
       envPortOf cfg.environment = none →
       ∀ v : Int, exposePortOf cfg = some v → v ≠ 0 →
         resolvedPort cfg = v)
    ∧ ((extract_and_remove_ports cfg).1 = [] →
       envPortOf cfg.environment = none → exposePortOf cfg = none →
       ∀ v : Int, imagePortOf cfg = some v → resolvedPort cfg = v)
    ∧ ((extract_and_remove_ports cfg).1 = [] →
       envPortOf cfg.environment = none → exposePortOf cfg = none →
       imagePortOf cfg = none → resolvedPort cfg = 80)
    ∧ ((extract_and_remove_ports cfg).1 = [] →
       detect_port_from_service cfg = some 0 → resolvedPort cfg = 80)
    ∧ resolvedPort
        { ports := some [.strP "8080:3000"],
          environment := .list [.strE "PORT=4000"] } = 3000
    ∧ resolvedPort { environment := .list [.strE "PORT=4000"] } = 4000
    ∧ resolvedPort { image := some "nginx:latest" } = 80
    ∧ resolvedPort ({} : ServiceConfig) = 80 := by
  have himg0 : ∀ v : Int, imagePortOf cfg = some v → v ≠ 0 := by
    intro v hv
    unfold imagePortOf at hv
    cases him : cfg.image with
    | none =>
      rw [him] at hv
      exact Option.noConfusion hv
    | some img =>
      rw [him] at hv
      simp only at hv
      repeat' split at hv
      all_goals first
        | exact Option.noConfusion hv
        | (injection hv with h
           omega)
  refine ⟨?_, ?_, ?_, ?_, ?_, ?_, by decide, by decide, by decide,
    by decide⟩
  · intro p ps h
    rw [resolvedPort, portFromExtracted_eq, h]
  · intro h v hv hv0
    rw [resolvedPort, portFromExtracted_eq, h]
    rw [extract_preserves_detection, detect_from_env cfg v hv]
    simp [hv0]
  · intro h he v hv hv0
    rw [resolvedPort, portFromExtracted_eq, h]
    rw [extract_preserves_detection, detect_from_expose cfg v he hv]
    simp [hv0]
  · intro h he hx v hv
    rw [resolvedPort, portFromExtracted_eq, h]
    rw [extract_preserves_detection, detect_from_image cfg he hx, hv]
    simp [himg0 v hv]
  · intro h he hx hi
    rw [resolvedPort, portFromExtracted_eq, h]
    rw [extract_preserves_detection, detect_from_image cfg he hx, hi]
  · intro h hd
    rw [resolvedPort, portFromExtracted_eq, h]
    rw [extract_preserves_detection, hd]
    simp

/-- Witness for `resolved_port_precedence`: the ports entry wins over
the environment variable, and a mapping-form variable resolves. -/
theorem resolved_port_precedence_witness :
    resolvedPort
      { ports := some [.strP "9999:1234"],
        environment := .list [.strE "PORT=4000"] } = 1234
    ∧ resolvedPort { environment := .dict [("SERVER_PORT", "7000")] }
        = 7000 :=
  ⟨(resolved_port_precedence _).1 1234 [] (by decide),
   (resolved_port_precedence _).2.1 (by decide) 7000 (by decide)
     (by decide)⟩

/-- **C4 counterexample.** A service whose only port source is the
recognized environment variable `PORT=0` resolves to 80, not 0: the
detected value is parsed (step 2 matches) but Python truthiness sends
it to the fallback constant, so the claim's "a recognized port
environment variable … resolves to its value" fails at 0. -/
theorem resolved_port_zero_env_counterexample :
    envPortOf (EnvField.list [.strE "PORT=0"]) = some 0
    ∧ resolvedPort { environment := .list [.strE "PORT=0"] } = 80
    ∧ (80 : Int) ≠ 0 := by
  refine ⟨by decide, by decide, by decide⟩

/-! ## C5 — transformer failure modes -/

/-- **C5 (amended).** The transformer reports failure (`False`) when
the source file is missing, unparsable, parses to a falsy document
(`None`, empty), or parses to a truthy non-mapping (`.get` raises
inside the `try`); in *every* failing case the file on disk is
unchanged — the write happens only after the whole mutation, so a
failure never overwrites the file.  However, a parsable non-empty
mapping that merely lacks a `services` section is **not** a failure:
the code creates an empty services section and succeeds. -/
theorem modify_compose_file_failure_modes (project : String)
    (d : ComposeDoc) :
    modify_compose_file project .missing = (false, .missing)
    ∧ modify_compose_file project .unparsable = (false, .unparsable)
    ∧ modify_compose_file project .yamlNull = (false, .yamlNull)
    ∧ modify_compose_file project .nonMapping = (false, .nonMapping)
    ∧ (d.services = none → d.networks = none → d.hasOtherKeys = false →
        modify_compose_file project (.doc d) = (false, .doc d))
    ∧ (∀ f : ComposeFile, (modify_compose_file project f).1 = false →
        (modify_compose_file project f).2 = f) := by
  refine ⟨rfl, rfl, rfl, rfl, ?_, ?_⟩
  · intro h1 h2 h3
    simp [modify_compose_file, h1, h2, h3]
  · intro f hf
    cases f with
    | missing => rfl
    | unparsable => rfl
    | yamlNull => rfl
    | nonMapping => rfl
    | doc d' =>
      by_cases ht :
          (d'.services.isSome || d'.networks.isSome || d'.hasOtherKeys)
            = true
      · rw [show modify_compose_file project (.doc d')
            = (true, .doc (add_traefik_configuration project d')) by
              simp [modify_compose_file, ht]] at hf
        exact absurd hf (by simp)
      · rw [Bool.not_eq_true] at ht
        simp [modify_compose_file, ht]

/-- Witness for `modify_compose_file_failure_modes` at an empty
mapping. -/
theorem modify_compose_file_failure_modes_witness :
    modify_compose_file "p" (.doc {}) = (false, .doc {})
    ∧ modify_compose_file "p" .missing = (false, .missing) :=
  ⟨(modify_compose_file_failure_modes "p" {}).2.2.2.2.1 rfl rfl rfl,
   (modify_compose_file_failure_modes "p" {}).1⟩

/-- **C5 counterexample.** A parsable, non-empty mapping without any
top-level `services` collection is accepted: the transformer returns
`True`, creates an empty services section, registers the shared
network, and rewrites the file — contradicting "lacks a usable
top-level service collection ⇒ reports failure". -/
theorem modify_compose_file_accepts_missing_services :
    (modify_compose_file "p" (.doc { hasOtherKeys := true })).1 = true
    ∧ (modify_compose_file "p" (.doc { hasOtherKeys := true })).2
        = .doc { services := some [],
                 networks := some [("web-proxy", .externalTrue)],
                 hasOtherKeys := true } := by decide

/-! ## C8 — webhook rejection paths -/

/-- **C8 (amended).** For every inbound webhook request and every
continuation `rest` (the part of the handler from the first registry
mutation on): a failed signature check — missing header, missing
secret, or invalid signature — yields 403; a non-JSON body yields 400;
a JSON payload whose extraction succeeds but whose repository name is
missing or empty yields 400; and in each of these cases, as well as
when payload extraction raises (a truthy `head_commit` without an
`id`, which surfaces as a 500 server error *before* the
repository-name check), the registry state is returned unchanged — no
Project row is created or updated and no Deployment row is recorded. -/
theorem webhook_rejects_before_mutation
    (hm : String → List Nat → String)
    (rest : DB → ProcessedData → Nat × DB) (db : DB) (raw : List Nat)
    (sig sec : Option String) (b : Bool) (payload : WebhookPayload) :
    (verify_github_webhook hm raw sig sec = false →
      webhook hm rest db raw sig sec b payload = (403, db))
    ∧ (verify_github_webhook hm raw sig sec = true → b = false →
      webhook hm rest db raw sig sec b payload = (400, db))
    ∧ (∀ pd : ProcessedData,
      verify_github_webhook hm raw sig sec = true → b = true →
      process_webhook payload = .ok pd →
      optStrTruthy pd.repo_name = false →
      webhook hm rest db raw sig sec b payload = (400, db))
    ∧ (verify_github_webhook hm raw sig sec = true → b = true →
      process_webhook payload = .error () →
      webhook hm rest db raw sig sec b payload = (500, db)) := by
  refine ⟨?_, ?_, ?_, ?_⟩
  · intro hv
    simp [webhook, hv]
  · intro hv hb
    simp [webhook, hv, hb]
  · intro pd hv hb hp hn
    simp [webhook, hv, hb, hp, hn]
  · intro hv hb hp
    simp [webhook, hv, hb, hp]

/-- Witness for `webhook_rejects_before_mutation`: a missing signature
header is rejected 403, and a valid signature with a JSON payload
lacking a repository name is rejected 400; the registry is unchanged in
both cases. -/
theorem webhook_rejects_before_mutation_witness :
    webhook (fun s _ => s) (fun db _ => (200, db)) ⟨[], [], 1, 1⟩ []
      none (some "s") true {} = (403, ⟨[], [], 1, 1⟩)
    ∧ webhook (fun s _ => s) (fun db _ => (200, db)) ⟨[], [], 1, 1⟩ []
        (some "sha256=s") (some "s") true {} = (400, ⟨[], [], 1, 1⟩) :=
  ⟨(webhook_rejects_before_mutation (fun s _ => s) (fun db _ => (200, db))
      ⟨[], [], 1, 1⟩ [] none (some "s") true {}).1 (by decide),
   (webhook_rejects_before_mutation (fun s _ => s) (fun db _ => (200, db))
      ⟨[], [], 1, 1⟩ [] (some "sha256=s") (some "s") true {}).2.2.1
     { repo_name := none, repo_url := none, commit_hash := none }
     (by decide) rfl rfl (by decide)⟩

/-- **C8 counterexample.** A correctly signed JSON payload that lacks
the repository name but carries a truthy `head_commit` without an `id`
is answered with a **500** server error (the `commit_hash[:8]` log line
raises `TypeError` before the repository-name check), not with a
client-error response — though the registry is still unchanged. -/
theorem webhook_missing_name_not_client_error :
    webhook (fun s _ => s) (fun db _ => (200, db)) ⟨[], [], 1, 1⟩ []
      (some "sha256=s") (some "s") true
      { repository := none, head_commit := .present none }
      = (500, ⟨[], [], 1, 1⟩)
    ∧ ¬(400 ≤ (webhook (fun s _ => s) (fun db _ => (200, db))
        ⟨[], [], 1, 1⟩ [] (some "sha256=s") (some "s") true
        { repository := none, head_commit := .present none }).1
      ∧ (webhook (fun s _ => s) (fun db _ => (200, db))
        ⟨[], [], 1, 1⟩ [] (some "sha256=s") (some "s") true
        { repository := none, head_commit := .present none }).1 < 500) := by
  refine ⟨by decide, by decide⟩

end Garcon
